import Mathlib

/-!
Verification of the completion-orchestration core of the `llmagent` Go
package (file `llm/provider.go`) against its natural-language specification.

The Go code is shallowly embedded: the stateful `Agent.Complete` method is
modelled as a pure function from an explicit agent state (registries, cache,
metrics, clock) to a new state together with the trace of backend invocations
and the observable outcome.  Go maps become association lists, Go channels of
`CompletionResponse` become lists (the channel's eventual contents; a `nil`
channel is `Option.none`), `time.Now()` becomes an explicit natural-number
clock threaded through the computation and advanced by the latency reported
for each backend invocation and by the fixed inter-attempt sleep.  Go
`float64` request fields are modelled as rationals (they are only copied and
compared, never computed with, in this file of the source), and Go `int` as
`Int`.  The caller-supplied cancellation context and the optional diagnostic
logger affect no state or result observed by the claims and are omitted.
-/

namespace LlmAgent

/-- One conversational turn (`Message` in the source): role and content. -/
structure Message where
  role : String
  content : String
deriving DecidableEq

/-- `CompletionRequest` from the source: ordered messages plus optional
model, tri-state stream flag, temperature, maxTokens, topP and stop
sequences.  Zero values of the numeric fields mean "unset". -/
structure CompletionRequest where
  messages : List Message
  model : String
  stream : Option Bool
  temperature : Rat
  maxTokens : Int
  topP : Rat
  stop : List String
deriving DecidableEq

/-- `CompletionRequest.StreamValue` from the source: the explicit stream
value if set, else `true` exactly when `MaxTokens > 0`, else `false`. -/
def CompletionRequest.StreamValue (c : CompletionRequest) : Bool :=
  match c.stream with
  | some b => b
  | none => decide (0 < c.maxTokens)

/-- One streamed unit of output (`CompletionResponse` in the source):
content plus an optional in-band error (Go `error` modelled as a string). -/
structure CompletionResponse where
  content : String
  err : Option String
deriving DecidableEq

/-- `ProviderConfig` from the source.  The optional `Logger` is omitted:
it only emits diagnostics and affects no observable state. -/
structure ProviderConfig where
  baseURL : String
  timeout : Nat
  defaultModel : String
  defaultStream : Option Bool
  defaultTemperature : Rat
  defaultMaxTokens : Int
  defaultTopP : Rat
  supportedModels : List String
  retryCount : Int

/-- A backend implementing the `Provider` interface of the source:
`Name()`, `GetConfig()` and `Complete(ctx, req)`.  The adapter's behaviour
is an oracle: given the number of attempts previously recorded against this
backend (standing for the adapter's internal state, which the orchestrator
never inspects) and the request it receives, it reports the elapsed latency
of the call together with either a request-construction error or the full
eventual contents of the returned response channel. -/
structure Provider where
  name : String
  config : ProviderConfig
  complete : Nat → CompletionRequest → Nat × Except String (List CompletionResponse)

/-- `ProviderMetrics` from the source: success and failure counters and the
cumulative latency (Go `time.Duration` nanoseconds, modelled as `Nat`:
latencies are non-negative and the counters only ever grow from zero). -/
structure ProviderMetrics where
  successCount : Nat
  failureCount : Nat
  totalLatency : Nat
deriving DecidableEq

/-- Association-list lookup, modelling a read of a Go map. -/
def alookup {κ α : Type} [DecidableEq κ] : List (κ × α) → κ → Option α
  | [], _ => none
  | (k, v) :: rest, n => if k = n then some v else alookup rest n

/-- The per-backend metrics map (`Agent.metrics` in the source). -/
abbrev Metrics := List (String × ProviderMetrics)

/-- Reading a backend's metrics; an absent entry reads as all-zero, which is
exactly the value the source lazily inserts on first use. -/
def mget (m : Metrics) (n : String) : ProviderMetrics :=
  (alookup m n).getD ⟨0, 0, 0⟩

/-- The lazy creation of a metrics entry on first use (`tryProvider`,
lines 295-299 of the source). -/
def mensure (m : Metrics) (n : String) : Metrics :=
  match alookup m n with
  | some _ => m
  | none => m ++ [(n, ⟨0, 0, 0⟩)]

/-- Point update of one backend's metrics entry, modelling mutation of the
`*ProviderMetrics` held in the Go map. -/
def mupd : Metrics → String → (ProviderMetrics → ProviderMetrics) → Metrics
  | [], _, _ => []
  | (k, v) :: rest, n, f =>
    if k = n then (k, f v) :: mupd rest n f else (k, v) :: mupd rest n f

/-- `m.TotalLatency += latency` (line 314 of the source). -/
def addLatency (m : Metrics) (n : String) (lat : Nat) : Metrics :=
  mupd m n (fun pm => { pm with totalLatency := pm.totalLatency + lat })

/-- `m.SuccessCount++` (line 316 of the source). -/
def incSuccess (m : Metrics) (n : String) : Metrics :=
  mupd m n (fun pm => { pm with successCount := pm.successCount + 1 })

/-- `m.FailureCount++` (line 323 of the source). -/
def incFailure (m : Metrics) (n : String) : Metrics :=
  mupd m n (fun pm => { pm with failureCount := pm.failureCount + 1 })

/-- Number of attempts already recorded against a backend; used to index the
backend's behaviour oracle. -/
def attemptIndex (m : Metrics) (n : String) : Nat :=
  (mget m n).successCount + (mget m n).failureCount

/-- `CachedRequest` from the source: the exact six fields serialized to form
the cache key. -/
structure CachedRequest where
  messages : List Message
  model : String
  temperature : Rat
  maxTokens : Int
  topP : Rat
  stop : List String
deriving DecidableEq

/-- `getCacheKey` from the source: the source JSON-serializes the
`CachedRequest` projection of the request and returns the sha256 digest in
lowercase hex.  The digest of the canonical serialization is modelled by the
`CachedRequest` value itself: the encoding is deterministic in these six
fields and is treated as collision-free.  Serialization cannot fail for
these field types in the model (in Go it fails only for non-finite floats),
so the key is total. -/
def getCacheKey (req : CompletionRequest) : CachedRequest :=
  ⟨req.messages, req.model, req.temperature, req.maxTokens, req.topP, req.stop⟩

/-- `cacheEntry` from the source: cached content and its expiration time. -/
structure CacheEntry where
  content : String
  expiresAt : Nat
deriving DecidableEq

/-- The cache map (`Agent.cache` in the source). -/
abbrev Cache := List (CachedRequest × CacheEntry)

/-- The cache read performed inside `Complete` (lines 256-267 of the
source): return the stored content only when an entry exists and its
expiration is strictly in the future (`entry.expiresAt.After(time.Now())`). -/
def cacheLookup (c : Cache) (k : CachedRequest) (now : Nat) : Option String :=
  match alookup c k with
  | some entry => if now < entry.expiresAt then some entry.content else none
  | none => none

/-- The cache write performed inside `Complete` (lines 376-381 of the
source): unconditional insert/overwrite with expiration `now + ttl`. -/
def cacheStore (c : Cache) (k : CachedRequest) (content : String) (now ttl : Nat) : Cache :=
  (k, ⟨content, now + ttl⟩) :: c.filter (fun kv => decide (kv.1 ≠ k))

/-- One pass of the background purge goroutine started by `NewAgent`
(lines 166-179 of the source): delete every entry whose expiration is
strictly before the current time (`entry.expiresAt.Before(now)`). -/
def sweepCache (c : Cache) (now : Nat) : Cache :=
  c.filter (fun kv => decide (¬ kv.2.expiresAt < now))

/-- The orchestrator state (`Agent` in the source), with the wall clock made
explicit.  Locks are dropped: the embedding is of a single sequential
`Complete` call. -/
structure Agent where
  defaultProvider : String
  fallbackProviders : List String
  userProviders : List (String × Provider)
  systemProviders : List (String × Provider)
  cache : Cache
  cacheTTL : Nat
  metrics : Metrics
  clock : Nat

/-- Registry well-formedness: every registered provider is keyed by its own
name, which is what `RegisterProvidersFromUser`/`FromSystem` establish
(they insert under `p.Name()`). -/
def WF (a : Agent) : Prop :=
  (∀ kv ∈ a.userProviders, (kv.2 : Provider).name = kv.1) ∧
  (∀ kv ∈ a.systemProviders, (kv.2 : Provider).name = kv.1)

instance (a : Agent) : Decidable (WF a) := by
  unfold WF; infer_instance

/-- Provider-name resolution (lines 272-275 of the source): the explicit
argument, else the configured default. -/
def resolveName (a : Agent) (providerName : String) : String :=
  if providerName = "" then a.defaultProvider else providerName

/-- Registry lookup (lines 276-282 of the source): user providers shadow
system providers. -/
def lookupProvider (a : Agent) (name : String) : Option Provider :=
  match alookup a.userProviders name with
  | some p => some p
  | none => alookup a.systemProviders name

/-- The cache consultation at the top of `Complete` (lines 252-269 of the
source): only for requests whose `StreamValue` is false, and only entries
whose expiration is strictly in the future. -/
def cacheHit (a : Agent) (req : CompletionRequest) : Option String :=
  if req.StreamValue then none
  else cacheLookup a.cache (getCacheKey req) a.clock

/-- The orchestrator's maxTokens defaulting (lines 287-291 and 355-357 of
the source): when the backend declares no default and the request carries
none, the request is mutated to the fixed fallback 200. -/
def defaultMaxTokensReq (cfg : ProviderConfig) (req : CompletionRequest) : CompletionRequest :=
  if cfg.defaultMaxTokens = 0 ∧ req.maxTokens = 0 then { req with maxTokens := 200 } else req

/-- The fixed inter-attempt delay of the retry loop (line 329 of the
source), in the clock's nanosecond units. -/
def sleepDelay : Nat := 100000000

/-- The attempt budget of the retry loop (lines 301-304 of the source):
`RetryCount + 1` when the configured retry count is positive, else 1. -/
def attemptsFor (cfg : ProviderConfig) : Nat :=
  if 0 < cfg.retryCount then (cfg.retryCount + 1).toNat else 1

/-- Result of one retry-executor run (`tryProvider` in the source): updated
metrics, advanced clock, the invocation events it performed (one backend
name per invocation, in order) and either the successful response channel
contents or the last error. -/
structure RunResult where
  metrics : Metrics
  clock : Nat
  events : List String
  result : Except String (List CompletionResponse)

/-- The attempt loop of `tryProvider` (lines 307-330 of the source), by
remaining-attempt fuel.  Each iteration invokes the backend, adds the
attempt's elapsed latency to the backend's metrics regardless of outcome,
then either increments the success counter and returns, or increments the
failure counter, sleeps the fixed delay, and retries.  Exhaustion returns
the last error. -/
def tryProviderLoop (current : Provider) (req : CompletionRequest) :
    Nat → String → Metrics → Nat → RunResult
  | 0, lastErr, m, clk => ⟨m, clk, [], Except.error lastErr⟩
  | n + 1, _, m, clk =>
    let idx := attemptIndex m current.name
    let step := current.complete idx req
    let m1 := addLatency m current.name step.1
    match step.2 with
    | Except.ok s =>
      ⟨incSuccess m1 current.name, clk + step.1, [current.name], Except.ok s⟩
    | Except.error e =>
      let r := tryProviderLoop current req n e (incFailure m1 current.name)
        (clk + step.1 + sleepDelay)
      ⟨r.metrics, r.clock, current.name :: r.events, r.result⟩

/-- `tryProvider` from the source (lines 293-332): ensure the metrics entry
exists, then run the attempt loop with the configured budget. -/
def tryProvider (current : Provider) (req : CompletionRequest) (m : Metrics) (clk : Nat) :
    RunResult :=
  tryProviderLoop current req (attemptsFor current.config) "" (mensure m current.name) clk

/-- Result of the fallback phase: like `RunResult`, plus the request as
further mutated by per-candidate maxTokens defaulting (the Go loop mutates
the local `req` persistently across iterations). -/
structure FallbackResult where
  metrics : Metrics
  clock : Nat
  events : List String
  req : CompletionRequest
  result : Except String (List CompletionResponse)

/-- The fallback loop of `Complete` (lines 341-365 of the source): iterate
the configured fallback names in order, skipping the primary's resolved
name, unresolvable names, and candidates for which no model resolves; apply
maxTokens defaulting for the candidate; run the retry executor; stop on the
first success; thread the most recent error through, returning it on
exhaustion. -/
def fallbackLoop (a : Agent) (primary : String) :
    List String → CompletionRequest → String → Metrics → Nat → FallbackResult
  | [], req, lastErr, m, clk => ⟨m, clk, [], req, Except.error lastErr⟩
  | fbName :: rest, req, lastErr, m, clk =>
    if fbName = primary then fallbackLoop a primary rest req lastErr m clk
    else
      match lookupProvider a fbName with
      | none => fallbackLoop a primary rest req lastErr m clk
      | some fb =>
        if fb.config.defaultModel = "" ∧ req.model = "" then
          fallbackLoop a primary rest req lastErr m clk
        else
          let req1 := defaultMaxTokensReq fb.config req
          let r := tryProvider fb req1 m clk
          match r.result with
          | Except.ok s => ⟨r.metrics, r.clock, r.events, req1, Except.ok s⟩
          | Except.error e =>
            let r2 := fallbackLoop a primary rest req1 e r.metrics r.clock
            ⟨r2.metrics, r2.clock, r.events ++ r2.events, r2.req, r2.result⟩

/-- The terminal errors `Complete` can return (lines 280, 285 and 366 of
the source). -/
inductive CompleteError where
  | providerNotRegistered (name : String)
  | noModelSpecified
  | allProvidersFailed (lastErr : String)
deriving DecidableEq

/-- What the caller of `Complete` observes.  `ok s` is a nil error together
with a response channel whose eventual contents are `s` (`ok none` is a nil
channel, which the source returns when the primary fails, no fallbacks are
configured, and the request re-checks as streaming); `err e` is a nil
channel with error `e`; `hang` marks the one control path that blocks
forever (receiving from a nil channel at `CACHE_STORE` when the primary
failed, no fallbacks are configured, and the request re-checks as
non-streaming). -/
inductive Outcome where
  | ok (stream : Option (List CompletionResponse))
  | err (e : CompleteError)
  | hang
deriving DecidableEq

/-- The `CACHE_STORE` section of `Complete` (lines 369-396 of the source).
If the request re-checks as non-streaming, exactly the first element of the
successful channel is drained: if the channel closed empty, the zero-value
response is returned; if the drained element carries no error, the content
is cached under the key of the (possibly mutated) request and the element
is returned alone; otherwise the element is returned alone without caching.
A streaming request gets the raw channel. -/
def cacheStorePhase (ttl : Nat) (cache : Cache) (req : CompletionRequest) (clk : Nat)
    (s : List CompletionResponse) : Cache × Outcome :=
  if req.StreamValue then (cache, Outcome.ok (some s))
  else
    match s with
    | [] => (cache, Outcome.ok (some [⟨"", none⟩]))
    | resp :: _ =>
      match resp.err with
      | none =>
        (cacheStore cache (getCacheKey req) resp.content clk ttl,
         Outcome.ok (some [resp]))
      | some _ => (cache, Outcome.ok (some [resp]))

/-- `Agent.Complete` from the source (lines 251-397), returning the updated
agent state, the trace of backend invocations (one name per call to a
provider's completion operation, in order), and the caller-visible outcome.
Stages in source order: cache consultation; name resolution; registry
lookup; model resolvability check; maxTokens defaulting; primary retry run;
on failure with configured fallbacks, the fallback loop; the `CACHE_STORE`
section.  When the primary fails and no fallbacks are configured, control
falls through to `CACHE_STORE` with a nil channel (see `Outcome`). -/
def Complete (a : Agent) (providerName : String) (req0 : CompletionRequest) :
    Agent × List String × Outcome :=
  match cacheHit a req0 with
  | some content => (a, [], Outcome.ok (some [⟨content, none⟩]))
  | none =>
    let name := resolveName a providerName
    match lookupProvider a name with
    | none => (a, [], Outcome.err (CompleteError.providerNotRegistered name))
    | some p =>
      if p.config.defaultModel = "" ∧ req0.model = "" then
        (a, [], Outcome.err CompleteError.noModelSpecified)
      else
        let req := defaultMaxTokensReq p.config req0
        let r1 := tryProvider p req a.metrics a.clock
        match r1.result with
        | Except.ok s =>
          let stored := cacheStorePhase a.cacheTTL a.cache req r1.clock s
          ({ a with metrics := r1.metrics, clock := r1.clock, cache := stored.1 },
           r1.events, stored.2)
        | Except.error e1 =>
          if a.fallbackProviders = [] then
            if req.StreamValue then
              ({ a with metrics := r1.metrics, clock := r1.clock }, r1.events,
               Outcome.ok none)
            else
              ({ a with metrics := r1.metrics, clock := r1.clock }, r1.events,
               Outcome.hang)
          else
            let r2 := fallbackLoop a name a.fallbackProviders req e1 r1.metrics r1.clock
            match r2.result with
            | Except.ok s =>
              let stored := cacheStorePhase a.cacheTTL a.cache r2.req r2.clock s
              ({ a with metrics := r2.metrics, clock := r2.clock, cache := stored.1 },
               r1.events ++ r2.events, stored.2)
            | Except.error e =>
              ({ a with metrics := r2.metrics, clock := r2.clock },
               r1.events ++ r2.events, Outcome.err (CompleteError.allProvidersFailed e))

/-- Number of occurrences of a backend name in an invocation trace. -/
def countOcc : List String → String → Nat
  | [], _ => 0
  | x :: rest, n => (if x = n then 1 else 0) + countOcc rest n

/-!
Concrete fixtures used by the counterexamples and witnesses below.  Each
provider's behaviour oracle is a small total function; each agent starts
from the state `NewAgent` builds (empty cache and metrics) unless a cache
entry is explicitly preloaded.
-/

/-- A backend named "beta" with a default model but no default maxTokens,
answering immediately with content "4". -/
def betaNoDefault : Provider :=
  { name := "beta"
    config := { baseURL := "", timeout := 0, defaultModel := "m", defaultStream := none,
                defaultTemperature := 0, defaultMaxTokens := 0, defaultTopP := 0,
                supportedModels := [], retryCount := 0 }
    complete := fun _ _ => (0, Except.ok [⟨"4", none⟩]) }

/-- The same backend with a configured default maxTokens of 100. -/
def betaWithDefault : Provider :=
  { betaNoDefault with
    name := "beta2"
    config := { betaNoDefault.config with defaultMaxTokens := 100 } }

/-- The request of spec scenario 3: one user message, stream explicitly
false, every optional field unset. -/
def reqTwoPlusTwo : CompletionRequest :=
  { messages := [⟨"user", "2+2?"⟩], model := "", stream := some false,
    temperature := 0, maxTokens := 0, topP := 0, stop := [] }

/-- An agent with only `betaNoDefault` registered. -/
def agentBeta : Agent :=
  { defaultProvider := "", fallbackProviders := [], userProviders := [("beta", betaNoDefault)],
    systemProviders := [], cache := [], cacheTTL := 300, metrics := [], clock := 0 }

/-- An agent with only `betaWithDefault` registered. -/
def agentBeta2 : Agent :=
  { agentBeta with userProviders := [("beta2", betaWithDefault)] }

/-- A backend whose channel yields three elements. -/
def threeChunkProvider : Provider :=
  { name := "p3"
    config := betaNoDefault.config
    complete := fun _ _ =>
      (0, Except.ok [⟨"a", none⟩, ⟨"b", none⟩, ⟨"c", none⟩]) }

/-- A request with stream unset and maxTokens unset: its caller-side
effective stream flag is false. -/
def reqUnsetStream : CompletionRequest :=
  { messages := [⟨"user", "hi"⟩], model := "", stream := none,
    temperature := 0, maxTokens := 0, topP := 0, stop := [] }

/-- An agent with only `threeChunkProvider` registered. -/
def agentThree : Agent :=
  { agentBeta with userProviders := [("p3", threeChunkProvider)] }

/-- A backend whose channel closes without yielding any element. -/
def emptyChunkProvider : Provider :=
  { threeChunkProvider with
    name := "p10"
    complete := fun _ _ => (0, Except.ok []) }

/-- An agent with only `emptyChunkProvider` registered. -/
def agentEmptyChunk : Agent :=
  { agentBeta with userProviders := [("p10", emptyChunkProvider)] }

/-- `reqUnsetStream` with stream explicitly false. -/
def reqStreamFalse : CompletionRequest :=
  { reqUnsetStream with stream := some false }

/-- A backend with neither a default model nor any other default. -/
def noModelProvider : Provider :=
  { threeChunkProvider with
    name := "p7"
    config := { threeChunkProvider.config with defaultModel := "" } }

/-- An agent holding `noModelProvider` and a live cache entry for
`reqStreamFalse` (stored content "cached", expiring at time 100). -/
def agentCachedNoModel : Agent :=
  { defaultProvider := "", fallbackProviders := [], userProviders := [("p7", noModelProvider)]
    systemProviders := [], cache := [(getCacheKey reqStreamFalse, ⟨"cached", 100⟩)]
    cacheTTL := 300, metrics := [], clock := 0 }

/-- A request with stream unset and a negative maxTokens. -/
def reqNegativeMaxTokens : CompletionRequest :=
  { reqUnsetStream with maxTokens := -1 }

/-- A request with stream unset and maxTokens 50. -/
def reqMaxTokens50 : CompletionRequest :=
  { reqUnsetStream with maxTokens := 50 }

/-- A backend with a retry budget of 2 that fails its first two attempts
(latency 7 each) and succeeds on the third. -/
def alphaFlaky : Provider :=
  { name := "alpha"
    config := { baseURL := "", timeout := 0, defaultModel := "m", defaultStream := none,
                defaultTemperature := 0, defaultMaxTokens := 5, defaultTopP := 0,
                supportedModels := [], retryCount := 2 }
    complete := fun i _ =>
      (7, if i < 2 then Except.error "boom" else Except.ok [⟨"third", none⟩]) }

/-- A backend that always fails. -/
def alphaDown : Provider :=
  { alphaFlaky with complete := fun _ _ => (1, Except.error "down") }

/-- A failing fallback backend named "gamma" with retry budget 0. -/
def gammaDown : Provider :=
  { name := "gamma"
    config := { alphaFlaky.config with retryCount := 0 }
    complete := fun _ _ => (2, Except.error "gdown") }

/-- A streaming request (stream explicitly true). -/
def reqStreamTrue : CompletionRequest :=
  { reqUnsetStream with stream := some true }

/-- An agent whose primary "alpha" always fails, with fallback list
naming the primary itself, an unregistered "missing", and "gamma". -/
def agentFallback : Agent :=
  { defaultProvider := "alpha"
    fallbackProviders := ["alpha", "missing", "gamma"]
    userProviders := [("alpha", alphaDown), ("gamma", gammaDown)]
    systemProviders := [], cache := [], cacheTTL := 300, metrics := [], clock := 0 }

/-!
Helper lemmas about the association-list operations.
-/

theorem alookup_append {κ α : Type} [DecidableEq κ] (l1 l2 : List (κ × α)) (k : κ) :
    alookup (l1 ++ l2) k = ((alookup l1 k).rec (alookup l2 k) fun v => some v) := by
  induction l1 with
  | nil => simp [alookup]
  | cons kv rest ih =>
    obtain ⟨k1, v1⟩ := kv
    by_cases h : k1 = k <;> simp [alookup, h, ih]

theorem alookup_mupd (m : Metrics) (n n' : String) (f : ProviderMetrics → ProviderMetrics) :
    alookup (mupd m n f) n' =
      if n' = n then (alookup m n).map f else alookup m n' := by
  induction m with
  | nil => simp [alookup, mupd]
  | cons kv rest ih =>
    obtain ⟨k1, v1⟩ := kv
    by_cases h1 : k1 = n
    · subst h1
      by_cases h2 : n' = k1
      · subst h2
        simp [alookup, mupd, ih]
      · have h2' : ¬ k1 = n' := fun h => h2 h.symm
        simp [alookup, mupd, h2, h2', ih]
    · by_cases h2 : k1 = n'
      · subst h2
        simp [alookup, mupd, h1]
      · simp [alookup, mupd, h1, h2, ih]

theorem mget_mupd_self (m : Metrics) (n : String) (f : ProviderMetrics → ProviderMetrics)
    (h : (alookup m n).isSome) : mget (mupd m n f) n = f (mget m n) := by
  obtain ⟨v, hv⟩ := Option.isSome_iff_exists.mp h
  simp [mget, alookup_mupd, hv]

theorem mget_mupd_ne (m : Metrics) (n n' : String) (f : ProviderMetrics → ProviderMetrics)
    (h : n' ≠ n) : mget (mupd m n f) n' = mget m n' := by
  simp [mget, alookup_mupd, h]

theorem isSome_alookup_mupd (m : Metrics) (n n' : String)
    (f : ProviderMetrics → ProviderMetrics) :
    (alookup (mupd m n f) n').isSome = (alookup m n').isSome := by
  by_cases h : n' = n <;> simp [alookup_mupd, h]

theorem alookup_mensure_self (m : Metrics) (n : String) :
    alookup (mensure m n) n = some (mget m n) := by
  unfold mensure
  cases h : alookup m n with
  | some v => simp [mget, h]
  | none => simp [alookup_append, h, alookup, mget]

theorem mget_mensure (m : Metrics) (n n' : String) :
    mget (mensure m n) n' = mget m n' := by
  unfold mensure
  cases h : alookup m n with
  | some v => rfl
  | none =>
    by_cases h2 : n' = n
    · subst h2; simp [mget, alookup_append, h, alookup]
    · have h2' : ¬ n = n' := fun hx => h2 hx.symm
      simp [mget, alookup_append, alookup, h2']
      cases h3 : alookup m n' <;> simp

theorem isSome_alookup_mensure (m : Metrics) (n n' : String)
    (h : (alookup m n').isSome) : (alookup (mensure m n) n').isSome := by
  unfold mensure
  cases hn : alookup m n with
  | some v => exact h
  | none =>
    obtain ⟨v, hv⟩ := Option.isSome_iff_exists.mp h
    simp [alookup_append, hv]

theorem countOcc_append (l1 l2 : List String) (n : String) :
    countOcc (l1 ++ l2) n = countOcc l1 n + countOcc l2 n := by
  induction l1 with
  | nil => simp [countOcc]
  | cons x rest ih => simp [countOcc, ih]; omega

/-!
Helper lemmas about the retry executor `tryProvider`.
-/

theorem tryProviderLoop_events_all (current : Provider) (req : CompletionRequest) :
    ∀ (fuel : Nat) (e : String) (m : Metrics) (clk : Nat),
      ∀ x ∈ (tryProviderLoop current req fuel e m clk).events, x = current.name := by
  intro fuel
  induction fuel with
  | zero =>
    intro e m clk x hx
    simp [tryProviderLoop] at hx
  | succ n ih =>
    intro e m clk x hx
    simp only [tryProviderLoop] at hx
    split at hx
    · simp at hx
      exact hx
    · simp at hx
      rcases hx with hx | hx
      · exact hx
      · exact ih _ _ _ x hx

theorem tryProviderLoop_events_length_le (current : Provider) (req : CompletionRequest) :
    ∀ (fuel : Nat) (e : String) (m : Metrics) (clk : Nat),
      (tryProviderLoop current req fuel e m clk).events.length ≤ fuel := by
  intro fuel
  induction fuel with
  | zero => intro e m clk; simp [tryProviderLoop]
  | succ n ih =>
    intro e m clk
    simp only [tryProviderLoop]
    split
    · simp
    · simpa using ih _ _ _

theorem tryProviderLoop_one_events_length (current : Provider) (req : CompletionRequest)
    (e : String) (m : Metrics) (clk : Nat) :
    (tryProviderLoop current req 1 e m clk).events.length = 1 := by
  simp only [tryProviderLoop]
  split
  · simp
  · simp [tryProviderLoop]

theorem tryProviderLoop_events_ne_nil (current : Provider) (req : CompletionRequest)
    (fuel : Nat) (e : String) (m : Metrics) (clk : Nat) (h : 0 < fuel) :
    (tryProviderLoop current req fuel e m clk).events ≠ [] := by
  cases fuel with
  | zero => omega
  | succ n =>
    simp only [tryProviderLoop]
    split
    · simp
    · simp

theorem mget_incSuccess_addLatency_self (m : Metrics) (n : String) (lat : Nat)
    (h : (alookup m n).isSome) :
    mget (incSuccess (addLatency m n lat) n) n =
      ⟨(mget m n).successCount + 1, (mget m n).failureCount,
       (mget m n).totalLatency + lat⟩ := by
  unfold incSuccess addLatency
  rw [mget_mupd_self _ _ _ ((isSome_alookup_mupd m n n _).symm ▸ h),
      mget_mupd_self _ _ _ h]

theorem mget_incFailure_addLatency_self (m : Metrics) (n : String) (lat : Nat)
    (h : (alookup m n).isSome) :
    mget (incFailure (addLatency m n lat) n) n =
      ⟨(mget m n).successCount, (mget m n).failureCount + 1,
       (mget m n).totalLatency + lat⟩ := by
  unfold incFailure addLatency
  rw [mget_mupd_self _ _ _ ((isSome_alookup_mupd m n n _).symm ▸ h),
      mget_mupd_self _ _ _ h]

theorem mget_incSuccess_addLatency_ne (m : Metrics) (n n' : String) (lat : Nat)
    (hn : n' ≠ n) : mget (incSuccess (addLatency m n lat) n) n' = mget m n' := by
  unfold incSuccess addLatency
  rw [mget_mupd_ne _ _ _ _ hn, mget_mupd_ne _ _ _ _ hn]

theorem mget_incFailure_addLatency_ne (m : Metrics) (n n' : String) (lat : Nat)
    (hn : n' ≠ n) : mget (incFailure (addLatency m n lat) n) n' = mget m n' := by
  unfold incFailure addLatency
  rw [mget_mupd_ne _ _ _ _ hn, mget_mupd_ne _ _ _ _ hn]

theorem tryProviderLoop_metrics (current : Provider) (req : CompletionRequest) :
    ∀ (fuel : Nat) (e : String) (m : Metrics) (clk : Nat),
      (alookup m current.name).isSome →
      (∀ n', (mget (tryProviderLoop current req fuel e m clk).metrics n').successCount
              + (mget (tryProviderLoop current req fuel e m clk).metrics n').failureCount
            = (mget m n').successCount + (mget m n').failureCount
              + countOcc (tryProviderLoop current req fuel e m clk).events n')
      ∧ (∀ n', (mget m n').totalLatency
            ≤ (mget (tryProviderLoop current req fuel e m clk).metrics n').totalLatency)
      ∧ clk ≤ (tryProviderLoop current req fuel e m clk).clock
      ∧ (alookup (tryProviderLoop current req fuel e m clk).metrics current.name).isSome := by
  intro fuel
  induction fuel with
  | zero =>
    intro e m clk h
    simp [tryProviderLoop, countOcc, h]
  | succ n ih =>
    intro e m clk h
    simp only [tryProviderLoop]
    rcases hstep : current.complete (attemptIndex m current.name) req with ⟨lat, res⟩
    cases res with
    | ok s =>
      simp only [hstep]
      refine ⟨?_, ?_, ?_, ?_⟩
      · intro n'
        by_cases hn : n' = current.name
        · subst hn
          simp [mget_incSuccess_addLatency_self m current.name lat h, countOcc]
          omega
        · have hn' : ¬ current.name = n' := fun hx => hn hx.symm
          simp [mget_incSuccess_addLatency_ne m _ _ lat hn, countOcc, hn']
      · intro n'
        by_cases hn : n' = current.name
        · subst hn
          simp [mget_incSuccess_addLatency_self m current.name lat h]
        · simp [mget_incSuccess_addLatency_ne m _ _ lat hn]
      · simp
      · simp [incSuccess, addLatency, isSome_alookup_mupd, h]
    | error e2 =>
      simp only [hstep]
      have hpres : (alookup (incFailure (addLatency m current.name lat) current.name)
          current.name).isSome := by
        simp [incFailure, addLatency, isSome_alookup_mupd, h]
      obtain ⟨ih1, ih2, ih3, ih4⟩ :=
        ih e2 (incFailure (addLatency m current.name lat) current.name)
          (clk + lat + sleepDelay) hpres
      refine ⟨?_, ?_, ?_, ?_⟩
      · intro n'
        have h1 := ih1 n'
        by_cases hn : n' = current.name
        · subst hn
          rw [mget_incFailure_addLatency_self m current.name lat h] at h1
          simp only [countOcc, if_pos rfl]
          simp at h1 ⊢
          omega
        · have hn' : ¬ current.name = n' := fun hx => hn hx.symm
          rw [mget_incFailure_addLatency_ne m _ _ lat hn] at h1
          simp only [countOcc, if_neg hn']
          simp at h1 ⊢
          omega
      · intro n'
        have h2 := ih2 n'
        by_cases hn : n' = current.name
        · subst hn
          rw [mget_incFailure_addLatency_self m current.name lat h] at h2
          simp at h2 ⊢
          omega
        · rw [mget_incFailure_addLatency_ne m _ _ lat hn] at h2
          exact h2
      · omega
      · exact ih4

theorem attemptsFor_pos (cfg : ProviderConfig) : 1 ≤ attemptsFor cfg := by
  unfold attemptsFor
  split <;> omega

theorem attemptsFor_le (cfg : ProviderConfig) :
    attemptsFor cfg ≤ cfg.retryCount.toNat + 1 := by
  unfold attemptsFor
  split <;> omega

theorem attemptsFor_zero (cfg : ProviderConfig) (h : cfg.retryCount = 0) :
    attemptsFor cfg = 1 := by
  unfold attemptsFor
  rw [h]
  simp

theorem tryProvider_events_all (current : Provider) (req : CompletionRequest)
    (m : Metrics) (clk : Nat) :
    ∀ x ∈ (tryProvider current req m clk).events, x = current.name := by
  unfold tryProvider
  exact tryProviderLoop_events_all current req _ _ _ _

theorem tryProvider_events_length_le (current : Provider) (req : CompletionRequest)
    (m : Metrics) (clk : Nat) :
    (tryProvider current req m clk).events.length ≤ attemptsFor current.config := by
  unfold tryProvider
  exact tryProviderLoop_events_length_le current req _ _ _ _

theorem tryProvider_events_length_one (current : Provider) (req : CompletionRequest)
    (m : Metrics) (clk : Nat) (h : current.config.retryCount = 0) :
    (tryProvider current req m clk).events.length = 1 := by
  unfold tryProvider
  rw [attemptsFor_zero _ h]
  exact tryProviderLoop_one_events_length current req _ _ _

theorem tryProvider_events_ne_nil (current : Provider) (req : CompletionRequest)
    (m : Metrics) (clk : Nat) : (tryProvider current req m clk).events ≠ [] := by
  unfold tryProvider
  exact tryProviderLoop_events_ne_nil current req _ _ _ _ (attemptsFor_pos _)

theorem tryProvider_metrics (current : Provider) (req : CompletionRequest)
    (m : Metrics) (clk : Nat) :
    (∀ n', (mget (tryProvider current req m clk).metrics n').successCount
            + (mget (tryProvider current req m clk).metrics n').failureCount
          = (mget m n').successCount + (mget m n').failureCount
            + countOcc (tryProvider current req m clk).events n')
    ∧ (∀ n', (mget m n').totalLatency
          ≤ (mget (tryProvider current req m clk).metrics n').totalLatency)
    ∧ clk ≤ (tryProvider current req m clk).clock := by
  have hpres : (alookup (mensure m current.name) current.name).isSome := by
    rw [alookup_mensure_self]
    rfl
  obtain ⟨h1, h2, h3, _⟩ := tryProviderLoop_metrics current req
    (attemptsFor current.config) "" (mensure m current.name) clk hpres
  unfold tryProvider
  refine ⟨?_, ?_, h3⟩
  · intro n'
    have hx := h1 n'
    rwa [mget_mensure] at hx
  · intro n'
    have hx := h2 n'
    rwa [mget_mensure] at hx

/-!
Helper lemmas about registries and the fallback phase.
-/

theorem alookup_mem {κ α : Type} [DecidableEq κ] (l : List (κ × α)) (k : κ) (v : α)
    (h : alookup l k = some v) : (k, v) ∈ l := by
  induction l with
  | nil => simp [alookup] at h
  | cons kv rest ih =>
    obtain ⟨k1, v1⟩ := kv
    by_cases h1 : k1 = k
    · subst h1
      simp [alookup] at h
      simp [h]
    · simp [alookup, h1] at h
      exact List.mem_cons_of_mem _ (ih h)

theorem lookupProvider_name (a : Agent) (hwf : WF a) (n : String) (p : Provider)
    (h : lookupProvider a n = some p) : p.name = n := by
  unfold lookupProvider at h
  cases hu : alookup a.userProviders n with
  | some q =>
    rw [hu] at h
    have hqp : q = p := by
      simpa using h
    subst hqp
    exact hwf.1 (n, q) (alookup_mem _ _ _ hu)
  | none =>
    rw [hu] at h
    exact hwf.2 (n, p) (alookup_mem _ _ _ h)

theorem fallbackLoop_events_ne (a : Agent) (hwf : WF a) (primary : String) :
    ∀ (fbs : List String) (req : CompletionRequest) (e : String) (m : Metrics) (clk : Nat),
      ∀ x ∈ (fallbackLoop a primary fbs req e m clk).events, x ≠ primary := by
  intro fbs
  induction fbs with
  | nil =>
    intro req e m clk x hx
    simp [fallbackLoop] at hx
  | cons fbName rest ih =>
    intro req e m clk x hx
    simp only [fallbackLoop] at hx
    split at hx
    · exact ih _ _ _ _ x hx
    · rename_i h1
      split at hx
      · exact ih _ _ _ _ x hx
      · rename_i fb hl
        split at hx
        · exact ih _ _ _ _ x hx
        · split at hx
          · simp only at hx
            have hname := tryProvider_events_all fb (defaultMaxTokensReq fb.config req) m clk x hx
            rw [hname, lookupProvider_name a hwf fbName fb hl]
            exact h1
          · simp only at hx
            rcases List.mem_append.mp hx with hx1 | hx2
            · have hname := tryProvider_events_all fb (defaultMaxTokensReq fb.config req) m clk x hx1
              rw [hname, lookupProvider_name a hwf fbName fb hl]
              exact h1
            · exact ih _ _ _ _ x hx2

theorem fallbackLoop_metrics (a : Agent) (primary : String) :
    ∀ (fbs : List String) (req : CompletionRequest) (e : String) (m : Metrics) (clk : Nat),
      (∀ n', (mget (fallbackLoop a primary fbs req e m clk).metrics n').successCount
              + (mget (fallbackLoop a primary fbs req e m clk).metrics n').failureCount
            = (mget m n').successCount + (mget m n').failureCount
              + countOcc (fallbackLoop a primary fbs req e m clk).events n')
      ∧ (∀ n', (mget m n').totalLatency
            ≤ (mget (fallbackLoop a primary fbs req e m clk).metrics n').totalLatency)
      ∧ clk ≤ (fallbackLoop a primary fbs req e m clk).clock := by
  intro fbs
  induction fbs with
  | nil =>
    intro req e m clk
    simp [fallbackLoop, countOcc]
  | cons fbName rest ih =>
    intro req e m clk
    simp only [fallbackLoop]
    split
    · exact ih _ _ _ _
    · split
      · exact ih _ _ _ _
      · rename_i fb hl
        split
        · exact ih _ _ _ _
        · obtain ⟨t1, t2, t3⟩ := tryProvider_metrics fb (defaultMaxTokensReq fb.config req) m clk
          split
          · refine ⟨?_, ?_, ?_⟩
            · intro n'
              simpa using t1 n'
            · intro n'
              simpa using t2 n'
            · simpa using t3
          · rename_i e2 heq
            obtain ⟨i1, i2, i3⟩ := ih (defaultMaxTokensReq fb.config req) e2
              (tryProvider fb (defaultMaxTokensReq fb.config req) m clk).metrics
              (tryProvider fb (defaultMaxTokensReq fb.config req) m clk).clock
            refine ⟨?_, ?_, ?_⟩
            · intro n'
              have hx := i1 n'
              have hy := t1 n'
              simp only [countOcc_append]
              simp only at hx ⊢
              omega
            · intro n'
              have hx := i2 n'
              have hy := t2 n'
              simp only at hx ⊢
              omega
            · simp only at i3 ⊢
              omega

/-!
Claim C6.
-/

/-- C6: every attempt against a backend updates that backend's metrics
exactly once — across a whole `Complete` call, for every backend name, the
final `successCount + failureCount` equals the initial sum plus the number
of invocations of that backend in the call's trace (each attempt increments
exactly one of the two counters), and `totalLatency` never decreases (each
attempt's elapsed latency is added regardless of outcome). -/
theorem C6_metrics_monotonicity (a : Agent) (pn : String) (req : CompletionRequest)
    (n' : String) :
    (mget (Complete a pn req).1.metrics n').successCount
      + (mget (Complete a pn req).1.metrics n').failureCount
    = (mget a.metrics n').successCount + (mget a.metrics n').failureCount
      + countOcc (Complete a pn req).2.1 n'
    ∧ (mget a.metrics n').totalLatency
      ≤ (mget (Complete a pn req).1.metrics n').totalLatency := by
  simp only [Complete]
  split
  · simp [countOcc]
  · split
    · simp [countOcc]
    · rename_i p hp
      split
      · simp [countOcc]
      · obtain ⟨t1, t2, t3⟩ :=
          tryProvider_metrics p (defaultMaxTokensReq p.config req) a.metrics a.clock
        split
        · exact ⟨by simpa using t1 n', by simpa using t2 n'⟩
        · split
          · split
            · exact ⟨by simpa using t1 n', by simpa using t2 n'⟩
            · exact ⟨by simpa using t1 n', by simpa using t2 n'⟩
          · rename_i e1 he1 hfb
            obtain ⟨f1, f2, f3⟩ := fallbackLoop_metrics a (resolveName a pn)
              a.fallbackProviders (defaultMaxTokensReq p.config req) e1
              (tryProvider p (defaultMaxTokensReq p.config req) a.metrics a.clock).metrics
              (tryProvider p (defaultMaxTokensReq p.config req) a.metrics a.clock).clock
            split
            · constructor
              · have hx := f1 n'
                have hy := t1 n'
                simp only [countOcc_append]
                simp only at hx ⊢
                omega
              · have hx := f2 n'
                have hy := t2 n'
                simp only at hx ⊢
                omega
            · constructor
              · have hx := f1 n'
                have hy := t1 n'
                simp only [countOcc_append]
                simp only at hx ⊢
                omega
              · have hx := f2 n'
                have hy := t2 n'
                simp only at hx ⊢
                omega

/-!
Claims C3, C4, C5.
-/

/-- C3: within one `Complete` call, each retry-executor run against a
backend configured with retry count N performs at most N+1 invocations of
that backend (and of no other backend) before the call fails over or fails
terminally, and a retry count of 0 yields exactly one invocation.
`Complete` invokes backends only through `tryProvider` runs (once for the
primary and once per viable fallback candidate). -/
theorem C3_retry_budget (current : Provider) (req : CompletionRequest)
    (m : Metrics) (clk : Nat) :
    (tryProvider current req m clk).events.length ≤ current.config.retryCount.toNat + 1
    ∧ (∀ x ∈ (tryProvider current req m clk).events, x = current.name)
    ∧ (current.config.retryCount = 0 →
        (tryProvider current req m clk).events.length = 1) :=
  ⟨le_trans (tryProvider_events_length_le current req m clk) (attemptsFor_le _),
   tryProvider_events_all current req m clk,
   fun h => tryProvider_events_length_one current req m clk h⟩

/-- Witness for C3 at a concrete backend with retry count 0 that fails its
single attempt: exactly one invocation is performed. -/
theorem C3_retry_budget_witness :
    gammaDown.config.retryCount = 0
    ∧ (tryProvider gammaDown reqStreamTrue [] 0).events.length = 1
    ∧ "gamma" = gammaDown.name :=
  ⟨rfl, (C3_retry_budget gammaDown reqStreamTrue [] 0).2.2 rfl,
   (C3_retry_budget gammaDown reqStreamTrue [] 0).2.1 "gamma" (by decide)⟩

/-- C4: the cache key is a function of exactly
`{messages, model, temperature, maxTokens, topP, stop}`: two requests that
agree on those six fields get equal keys, whatever their stream flags. -/
theorem C4_cache_key_determinism (r1 r2 : CompletionRequest)
    (h1 : r1.messages = r2.messages) (h2 : r1.model = r2.model)
    (h3 : r1.temperature = r2.temperature) (h4 : r1.maxTokens = r2.maxTokens)
    (h5 : r1.topP = r2.topP) (h6 : r1.stop = r2.stop) :
    getCacheKey r1 = getCacheKey r2 := by
  simp [getCacheKey, h1, h2, h3, h4, h5, h6]

/-- Witness for C4 at two concrete requests that differ only in their
stream flags. -/
theorem C4_cache_key_determinism_witness :
    reqStreamTrue.stream ≠ reqStreamFalse.stream
    ∧ getCacheKey reqStreamTrue = getCacheKey reqStreamFalse :=
  ⟨by decide,
   C4_cache_key_determinism reqStreamTrue reqStreamFalse rfl rfl rfl rfl rfl rfl⟩

/-- C5 counterexample: the claim reads "else true when maxTokens was
explicitly set by the caller (non-zero)", but on the code a request with
stream unset and maxTokens = -1 (non-zero, hence explicitly set under the
spec's zero-as-unset convention) has effective stream flag false:
`StreamValue` tests `MaxTokens > 0`, not non-zero. -/
theorem C5_effective_stream_counterexample :
    reqNegativeMaxTokens.stream = none
    ∧ reqNegativeMaxTokens.maxTokens ≠ 0
    ∧ reqNegativeMaxTokens.StreamValue = false :=
  ⟨rfl, by decide, by decide⟩

/-- C5 amended: the effective stream flag resolves as the explicit request
value when the stream field is set; else true when the caller-supplied
maxTokens is positive; else false (in particular a negative maxTokens,
though non-zero, does not make the request streaming). -/
theorem C5_effective_stream (c : CompletionRequest) :
    (∀ b, c.stream = some b → c.StreamValue = b)
    ∧ (c.stream = none → 0 < c.maxTokens → c.StreamValue = true)
    ∧ (c.stream = none → c.maxTokens ≤ 0 → c.StreamValue = false) := by
  refine ⟨?_, ?_, ?_⟩
  · intro b hb
    simp [CompletionRequest.StreamValue, hb]
  · intro hs hm
    simp [CompletionRequest.StreamValue, hs]
    omega
  · intro hs hm
    simp [CompletionRequest.StreamValue, hs]
    omega

/-- Witness for C5 at a concrete request with stream unset and
maxTokens 50. -/
theorem C5_effective_stream_witness :
    reqMaxTokens50.stream = none
    ∧ 0 < reqMaxTokens50.maxTokens
    ∧ reqMaxTokens50.StreamValue = true :=
  ⟨rfl, by decide, (C5_effective_stream reqMaxTokens50).2.1 rfl (by decide)⟩

/-!
Claim C9, with two small cache lemmas.
-/

theorem alookup_eq_none {κ α : Type} [DecidableEq κ] (l : List (κ × α)) (k : κ)
    (h : ∀ kv ∈ l, kv.1 ≠ k) : alookup l k = none := by
  induction l with
  | nil => rfl
  | cons kv rest ih =>
    obtain ⟨k1, v1⟩ := kv
    have h1 : k1 ≠ k := h (k1, v1) (List.mem_cons_self _ _)
    simp only [alookup]
    rw [if_neg h1]
    exact ih fun kv hm => h kv (List.mem_cons_of_mem _ hm)

theorem alookup_filter_filter_ne (c : Cache) (k : CachedRequest)
    (q : CachedRequest × CacheEntry → Bool) :
    alookup ((c.filter fun kv => decide (kv.1 ≠ k)).filter q) k = none := by
  apply alookup_eq_none
  intro kv hm
  have hm1 := (List.mem_filter.mp hm).1
  exact of_decide_eq_true (List.mem_filter.mp hm1).2

theorem cacheLookup_store_self (c : Cache) (k : CachedRequest) (content : String)
    (T D Tq : Nat) :
    cacheLookup (cacheStore c k content T D) k Tq
      = if Tq < T + D then some content else none := by
  simp [cacheLookup, cacheStore, alookup]

/-- C9: an entry stored at time T with TTL D is returned by `cacheLookup`
at any time Tq with Tq < T + D, is not returned once T + D ≤ Tq, and a
background sweep at any time S up to the lookup time changes neither
answer (lookup checks expiration itself; the sweep only deletes entries
already expired at S). -/
theorem C9_ttl_correctness (c : Cache) (k : CachedRequest) (content : String)
    (T D Tq : Nat) :
    (Tq < T + D → cacheLookup (cacheStore c k content T D) k Tq = some content)
    ∧ (T + D ≤ Tq → cacheLookup (cacheStore c k content T D) k Tq = none)
    ∧ (∀ S, S ≤ Tq →
        cacheLookup (sweepCache (cacheStore c k content T D) S) k Tq
          = cacheLookup (cacheStore c k content T D) k Tq) := by
  refine ⟨?_, ?_, ?_⟩
  · intro h
    rw [cacheLookup_store_self, if_pos h]
  · intro h
    rw [cacheLookup_store_self, if_neg (by omega)]
  · intro S hS
    rw [cacheLookup_store_self]
    simp only [sweepCache, cacheStore, List.filter_cons]
    by_cases hk : T + D < S
    · rw [if_neg (by simpa using hk)]
      have h1 : ¬ Tq < T + D := by omega
      rw [if_neg h1]
      simp only [cacheLookup]
      rw [alookup_filter_filter_ne]
    · rw [if_pos (by simpa using hk)]
      simp [cacheLookup, alookup]

/-- Witness for C9 at a concrete store (time 5, TTL 10) with lookups at
times 7 and 20 and a sweep at time 7. -/
theorem C9_ttl_correctness_witness :
    cacheLookup (cacheStore [] (getCacheKey reqStreamFalse) "x" 5 10)
        (getCacheKey reqStreamFalse) 7 = some "x"
    ∧ cacheLookup (cacheStore [] (getCacheKey reqStreamFalse) "x" 5 10)
        (getCacheKey reqStreamFalse) 20 = none
    ∧ cacheLookup (sweepCache (cacheStore [] (getCacheKey reqStreamFalse) "x" 5 10) 7)
        (getCacheKey reqStreamFalse) 7
      = cacheLookup (cacheStore [] (getCacheKey reqStreamFalse) "x" 5 10)
        (getCacheKey reqStreamFalse) 7 :=
  ⟨(C9_ttl_correctness [] (getCacheKey reqStreamFalse) "x" 5 10 7).1 (by omega),
   (C9_ttl_correctness [] (getCacheKey reqStreamFalse) "x" 5 10 20).2.1 (by omega),
   (C9_ttl_correctness [] (getCacheKey reqStreamFalse) "x" 5 10 7).2.2 7 (by omega)⟩

/-!
Unfolding lemmas for the stages of `Complete`.
-/

theorem cacheStorePhase_nonstream_ok (ttl : Nat) (cache : Cache)
    (req : CompletionRequest) (clk : Nat) (resp : CompletionResponse)
    (rest : List CompletionResponse) (hsv : req.StreamValue = false)
    (herr : resp.err = none) :
    cacheStorePhase ttl cache req clk (resp :: rest)
      = (cacheStore cache (getCacheKey req) resp.content clk ttl,
         Outcome.ok (some [resp])) := by
  simp [cacheStorePhase, hsv, herr]

theorem cacheStorePhase_nonstream_nil (ttl : Nat) (cache : Cache)
    (req : CompletionRequest) (clk : Nat) (hsv : req.StreamValue = false) :
    cacheStorePhase ttl cache req clk [] = (cache, Outcome.ok (some [⟨"", none⟩])) := by
  simp [cacheStorePhase, hsv]

theorem Complete_hit (a : Agent) (pn : String) (req : CompletionRequest)
    (content : String) (hhit : cacheHit a req = some content) :
    Complete a pn req = (a, [], Outcome.ok (some [⟨content, none⟩])) := by
  simp only [Complete, hhit]

theorem Complete_primary_ok (a : Agent) (pn : String) (req : CompletionRequest)
    (p : Provider) (s : List CompletionResponse)
    (hmiss : cacheHit a req = none)
    (hres : lookupProvider a (resolveName a pn) = some p)
    (hmodel : ¬ (p.config.defaultModel = "" ∧ req.model = ""))
    (htry : (tryProvider p (defaultMaxTokensReq p.config req) a.metrics a.clock).result
            = Except.ok s) :
    Complete a pn req =
      ({ a with
         metrics := (tryProvider p (defaultMaxTokensReq p.config req) a.metrics a.clock).metrics
         clock := (tryProvider p (defaultMaxTokensReq p.config req) a.metrics a.clock).clock
         cache := (cacheStorePhase a.cacheTTL a.cache (defaultMaxTokensReq p.config req)
                    (tryProvider p (defaultMaxTokensReq p.config req) a.metrics a.clock).clock
                    s).1 },
       (tryProvider p (defaultMaxTokensReq p.config req) a.metrics a.clock).events,
       (cacheStorePhase a.cacheTTL a.cache (defaultMaxTokensReq p.config req)
          (tryProvider p (defaultMaxTokensReq p.config req) a.metrics a.clock).clock s).2) := by
  simp only [Complete, hmiss, hres]
  rw [if_neg hmodel]
  simp only [htry]

/-!
Claim C7.
-/

/-- C7 counterexample: the claim states that whenever the request's model
and the resolved backend's default model are both empty, `Complete` fails
with a configuration error; but the cache consultation precedes the model
check, so with a live cached entry under the request's key the call
succeeds from the cache (trace empty, no error) instead of failing. -/
theorem C7_config_error_counterexample :
    reqStreamFalse.model = ""
    ∧ lookupProvider agentCachedNoModel
        (resolveName agentCachedNoModel "p7") = some noModelProvider
    ∧ noModelProvider.config.defaultModel = ""
    ∧ (Complete agentCachedNoModel "p7" reqStreamFalse).2.2
        = Outcome.ok (some [⟨"cached", none⟩])
    ∧ (Complete agentCachedNoModel "p7" reqStreamFalse).2.1 = [] :=
  ⟨rfl, rfl, rfl, by decide, by decide⟩

/-- C7 amended: provided the cache consultation misses (as it always does
when no live entry exists for the request's key, and vacuously for
streaming requests), an empty request model together with an empty default
model on the resolved backend makes `Complete` fail with the configuration
error before any backend invocation and before any metrics or cache
update: the agent state is returned unchanged and the invocation trace is
empty. -/
theorem C7_config_error (a : Agent) (pn : String) (req : CompletionRequest)
    (p : Provider)
    (hmiss : cacheHit a req = none)
    (hres : lookupProvider a (resolveName a pn) = some p)
    (hdm : p.config.defaultModel = "")
    (hm : req.model = "") :
    Complete a pn req = (a, [], Outcome.err CompleteError.noModelSpecified) := by
  simp only [Complete, hmiss, hres]
  rw [if_pos ⟨hdm, hm⟩]

/-- Witness for C7 on a fresh agent (empty cache) holding only a backend
with no default model, with a model-less non-streaming request. -/
theorem C7_config_error_witness :
    cacheHit { agentCachedNoModel with cache := [] } reqStreamFalse = none
    ∧ noModelProvider.config.defaultModel = ""
    ∧ reqStreamFalse.model = ""
    ∧ Complete { agentCachedNoModel with cache := [] } "p7" reqStreamFalse
        = ({ agentCachedNoModel with cache := [] }, [],
           Outcome.err CompleteError.noModelSpecified) :=
  ⟨by decide, rfl, rfl,
   C7_config_error { agentCachedNoModel with cache := [] } "p7" reqStreamFalse
     noModelProvider (by decide) rfl rfl rfl⟩

/-!
Claim C2.
-/

/-- C2 counterexample: the effective stream flag of the call — resolved
from the caller-supplied request per the spec (stream unset, maxTokens
unset, hence false) — is false, and the backend's channel yields three
elements, yet the caller observes all three: the primary backend has no
default maxTokens, so the orchestrator mutates the request's maxTokens to
200 before the `CACHE_STORE` re-check, which then re-evaluates the stream
flag as true and forwards the raw backend stream. -/
theorem C2_nonstream_truncation_counterexample :
    reqUnsetStream.StreamValue = false
    ∧ (Complete agentThree "p3" reqUnsetStream).2.2
        = Outcome.ok (some [⟨"a", none⟩, ⟨"b", none⟩, ⟨"c", none⟩]) :=
  ⟨by decide, by decide⟩

/-- C2 amended: for a `Complete` call where the stream flag of the request
as it stands at the `CACHE_STORE` re-check — i.e. after maxTokens
defaulting — is false (in particular whenever the caller sets the stream
flag explicitly to false), if the backend's successful channel yields
three elements, the caller observes exactly one: only the first element is
drained and the returned stream carries that single element and closes. -/
theorem C2_nonstream_truncation (a : Agent) (pn : String) (req : CompletionRequest)
    (p : Provider) (r1 r2 r3 : CompletionResponse)
    (hmiss : cacheHit a req = none)
    (hres : lookupProvider a (resolveName a pn) = some p)
    (hmodel : ¬ (p.config.defaultModel = "" ∧ req.model = ""))
    (hsv : (defaultMaxTokensReq p.config req).StreamValue = false)
    (htry : (tryProvider p (defaultMaxTokensReq p.config req) a.metrics a.clock).result
            = Except.ok [r1, r2, r3]) :
    (Complete a pn req).2.2 = Outcome.ok (some [r1]) := by
  rw [Complete_primary_ok a pn req p [r1, r2, r3] hmiss hres hmodel htry]
  cases herr : r1.err with
  | none => simp [cacheStorePhase_nonstream_ok _ _ _ _ r1 [r2, r3] hsv herr]
  | some e => simp [cacheStorePhase, hsv, herr]

/-- Witness for C2: the three-chunk backend behind a request whose stream
flag is explicitly false; the caller sees exactly the first chunk. -/
theorem C2_nonstream_truncation_witness :
    cacheHit agentThree reqStreamFalse = none
    ∧ (defaultMaxTokensReq threeChunkProvider.config reqStreamFalse).StreamValue = false
    ∧ (Complete agentThree "p3" reqStreamFalse).2.2 = Outcome.ok (some [⟨"a", none⟩]) :=
  ⟨by decide, by decide,
   C2_nonstream_truncation agentThree "p3" reqStreamFalse threeChunkProvider
     ⟨"a", none⟩ ⟨"b", none⟩ ⟨"c", none⟩ (by decide) rfl (by decide) (by decide) rfl⟩

/-!
Claim C10.
-/

/-- C10 counterexample: a call whose effective stream flag — resolved from
the caller-supplied request — is false, whose successful backend channel
closes without yielding any element: the claim says the caller gets a
single-element stream carrying the zero-value response, but because the
backend has no default maxTokens the request's maxTokens is mutated to
200, the `CACHE_STORE` re-check sees a streaming request, and the raw
empty stream is returned instead. -/
theorem C10_empty_stream_counterexample :
    reqUnsetStream.StreamValue = false
    ∧ (Complete agentEmptyChunk "p10" reqUnsetStream).2.1 = ["p10"]
    ∧ (Complete agentEmptyChunk "p10" reqUnsetStream).2.2 = Outcome.ok (some []) :=
  ⟨by decide, by decide, by decide⟩

/-- C10 amended: for a `Complete` call where the stream flag of the
request as it stands at the `CACHE_STORE` re-check (after maxTokens
defaulting) is false — in particular whenever the caller sets stream
explicitly to false — if the successful backend's channel closes without
yielding any element, `Complete` returns a nil error together with a
single-element stream carrying the zero-value response (empty content, no
error), and writes nothing to the cache. -/
theorem C10_empty_stream (a : Agent) (pn : String) (req : CompletionRequest)
    (p : Provider)
    (hmiss : cacheHit a req = none)
    (hres : lookupProvider a (resolveName a pn) = some p)
    (hmodel : ¬ (p.config.defaultModel = "" ∧ req.model = ""))
    (hsv : (defaultMaxTokensReq p.config req).StreamValue = false)
    (htry : (tryProvider p (defaultMaxTokensReq p.config req) a.metrics a.clock).result
            = Except.ok []) :
    Complete a pn req =
      ({ a with
         metrics := (tryProvider p (defaultMaxTokensReq p.config req) a.metrics a.clock).metrics
         clock := (tryProvider p (defaultMaxTokensReq p.config req) a.metrics a.clock).clock },
       (tryProvider p (defaultMaxTokensReq p.config req) a.metrics a.clock).events,
       Outcome.ok (some [⟨"", none⟩])) := by
  rw [Complete_primary_ok a pn req p [] hmiss hres hmodel htry,
      cacheStorePhase_nonstream_nil _ _ _ _ hsv]

/-- Witness for C10: the empty-channel backend behind a request whose
stream flag is explicitly false. -/
theorem C10_empty_stream_witness :
    cacheHit agentEmptyChunk reqStreamFalse = none
    ∧ (defaultMaxTokensReq emptyChunkProvider.config reqStreamFalse).StreamValue = false
    ∧ Complete agentEmptyChunk "p10" reqStreamFalse =
      ({ agentEmptyChunk with
         metrics := (tryProvider emptyChunkProvider
           (defaultMaxTokensReq emptyChunkProvider.config reqStreamFalse)
           agentEmptyChunk.metrics agentEmptyChunk.clock).metrics
         clock := (tryProvider emptyChunkProvider
           (defaultMaxTokensReq emptyChunkProvider.config reqStreamFalse)
           agentEmptyChunk.metrics agentEmptyChunk.clock).clock },
       (tryProvider emptyChunkProvider
         (defaultMaxTokensReq emptyChunkProvider.config reqStreamFalse)
         agentEmptyChunk.metrics agentEmptyChunk.clock).events,
       Outcome.ok (some [⟨"", none⟩])) :=
  ⟨by decide, by decide,
   C10_empty_stream agentEmptyChunk "p10" reqStreamFalse emptyChunkProvider
     (by decide) rfl (by decide) (by decide) rfl⟩

/-!
Claim C1.
-/

theorem defaultMaxTokensReq_id (cfg : ProviderConfig) (req : CompletionRequest)
    (h : ¬ (cfg.defaultMaxTokens = 0 ∧ req.maxTokens = 0)) :
    defaultMaxTokensReq cfg req = req := by
  unfold defaultMaxTokensReq
  rw [if_neg h]

/-- C1 counterexample: spec scenario 3 run against a backend whose
`DefaultMaxTokens` is 0.  The request (stream explicitly false, maxTokens
unset) is issued twice; the claim demands that the second call be served
from the cache with zero invocations, regardless of backend defaulting of
maxTokens.  On the code, the orchestrator mutates the request's maxTokens
to 200 before the `CACHE_STORE` key is computed, so the first call stores
under a different key than lookup uses; the second call misses the cache
(within TTL: the clock has not advanced) and invokes "beta" again, also
changing its metrics. -/
theorem C1_cache_roundtrip_counterexample :
    reqTwoPlusTwo.stream = some false
    ∧ betaNoDefault.config.defaultMaxTokens = 0
    ∧ 0 < agentBeta.cacheTTL
    ∧ (Complete agentBeta "beta" reqTwoPlusTwo).2.1 = ["beta"]
    ∧ (Complete agentBeta "beta" reqTwoPlusTwo).1.clock = agentBeta.clock
    ∧ (Complete (Complete agentBeta "beta" reqTwoPlusTwo).1 "beta" reqTwoPlusTwo).2.1
        = ["beta"]
    ∧ mget (Complete (Complete agentBeta "beta" reqTwoPlusTwo).1 "beta"
          reqTwoPlusTwo).1.metrics "beta"
        ≠ mget (Complete agentBeta "beta" reqTwoPlusTwo).1.metrics "beta" := by
  decide

/-- C1 amended: the round trip behaves as claimed provided the
orchestrator's maxTokens defaulting does not fire (the resolved backend's
DefaultMaxTokens is non-zero, or the caller set maxTokens), so that the
store-time key equals the lookup-time key.  Then, for a request with
stream explicitly false that misses the cache and whose backend run
succeeds with an error-free first element: the first call invokes only
that backend and stores the drained content, and any second identical
call within the TTL of the stored entry returns the cached content with an
empty invocation trace and a completely unchanged agent state (metrics
included). -/
theorem C1_cache_roundtrip (a : Agent) (pn : String) (req : CompletionRequest)
    (p : Provider) (resp : CompletionResponse) (rest : List CompletionResponse)
    (hmiss : cacheHit a req = none)
    (hres : lookupProvider a (resolveName a pn) = some p)
    (hstream : req.stream = some false)
    (hmodel : ¬ (p.config.defaultModel = "" ∧ req.model = ""))
    (hmt : ¬ (p.config.defaultMaxTokens = 0 ∧ req.maxTokens = 0))
    (htry : (tryProvider p req a.metrics a.clock).result = Except.ok (resp :: rest))
    (herr : resp.err = none) :
    ((tryProvider p req a.metrics a.clock).events ≠ []
      ∧ ∀ x ∈ (tryProvider p req a.metrics a.clock).events, x = p.name)
    ∧ Complete a pn req =
        ({ a with
           metrics := (tryProvider p req a.metrics a.clock).metrics
           clock := (tryProvider p req a.metrics a.clock).clock
           cache := cacheStore a.cache (getCacheKey req) resp.content
                      (tryProvider p req a.metrics a.clock).clock a.cacheTTL },
         (tryProvider p req a.metrics a.clock).events, Outcome.ok (some [resp]))
    ∧ ∀ t, t < (tryProvider p req a.metrics a.clock).clock + a.cacheTTL →
        Complete
          { a with
            metrics := (tryProvider p req a.metrics a.clock).metrics
            clock := t
            cache := cacheStore a.cache (getCacheKey req) resp.content
                       (tryProvider p req a.metrics a.clock).clock a.cacheTTL }
          pn req
        = ({ a with
             metrics := (tryProvider p req a.metrics a.clock).metrics
             clock := t
             cache := cacheStore a.cache (getCacheKey req) resp.content
                        (tryProvider p req a.metrics a.clock).clock a.cacheTTL },
           [], Outcome.ok (some [resp])) := by
  obtain ⟨rc, re⟩ := resp
  simp only at herr
  subst herr
  have hid : defaultMaxTokensReq p.config req = req := defaultMaxTokensReq_id _ _ hmt
  have hsv : req.StreamValue = false := by
    simp [CompletionRequest.StreamValue, hstream]
  refine ⟨⟨tryProvider_events_ne_nil p req a.metrics a.clock,
           tryProvider_events_all p req a.metrics a.clock⟩, ?_, ?_⟩
  · rw [Complete_primary_ok a pn req p (⟨rc, none⟩ :: rest) hmiss hres hmodel
        (by rw [hid]; exact htry)]
    rw [hid, cacheStorePhase_nonstream_ok _ _ _ _ ⟨rc, none⟩ rest hsv rfl]
  · intro t ht
    have hhit : cacheHit
        { a with
          metrics := (tryProvider p req a.metrics a.clock).metrics
          clock := t
          cache := cacheStore a.cache (getCacheKey req) rc
                     (tryProvider p req a.metrics a.clock).clock a.cacheTTL }
        req = some rc := by
      unfold cacheHit
      rw [hsv]
      simp only [Bool.false_eq_true, if_false]
      rw [cacheLookup_store_self]
      exact if_pos ht
    exact Complete_hit _ pn req rc hhit

/-- Witness for C1 on a backend with DefaultMaxTokens 100 (the defaulting
mutation does not fire): the second identical call within the TTL is
served from the cache with an empty trace and unchanged state. -/
theorem C1_cache_roundtrip_witness :
    cacheHit agentBeta2 reqTwoPlusTwo = none
    ∧ ¬ (betaWithDefault.config.defaultMaxTokens = 0 ∧ reqTwoPlusTwo.maxTokens = 0)
    ∧ Complete
        { agentBeta2 with
          metrics := (tryProvider betaWithDefault reqTwoPlusTwo
            agentBeta2.metrics agentBeta2.clock).metrics
          clock := 0
          cache := cacheStore agentBeta2.cache (getCacheKey reqTwoPlusTwo) "4"
            (tryProvider betaWithDefault reqTwoPlusTwo
              agentBeta2.metrics agentBeta2.clock).clock agentBeta2.cacheTTL }
        "beta2" reqTwoPlusTwo
      = ({ agentBeta2 with
           metrics := (tryProvider betaWithDefault reqTwoPlusTwo
             agentBeta2.metrics agentBeta2.clock).metrics
           clock := 0
           cache := cacheStore agentBeta2.cache (getCacheKey reqTwoPlusTwo) "4"
             (tryProvider betaWithDefault reqTwoPlusTwo
               agentBeta2.metrics agentBeta2.clock).clock agentBeta2.cacheTTL },
         [], Outcome.ok (some [⟨"4", none⟩])) :=
  ⟨by decide, by decide,
   (C1_cache_roundtrip agentBeta2 "beta2" reqTwoPlusTwo betaWithDefault ⟨"4", none⟩ []
     (by decide) rfl rfl (by decide) (by decide) rfl rfl).2.2 0 (by decide)⟩

/-!
Claim C8.
-/

/-- C8: in the fallback phase of a `Complete` call (primary run failed and
fallbacks are configured), no invocation event carries the resolved
primary backend's name, even when that name occurs in the fallback list
(the loop skips it, and, by registry well-formedness, every other viable
candidate invokes a backend bearing its own distinct registered name); and
if the fallback loop exhausts with most-recent underlying error e,
`Complete` fails with the all-providers-failed error wrapping exactly
that error. -/
theorem C8_fallback_skip (a : Agent) (pn : String) (req : CompletionRequest)
    (p : Provider) (e1 : String)
    (hwf : WF a)
    (hmiss : cacheHit a req = none)
    (hres : lookupProvider a (resolveName a pn) = some p)
    (hmodel : ¬ (p.config.defaultModel = "" ∧ req.model = ""))
    (htry : (tryProvider p (defaultMaxTokensReq p.config req) a.metrics a.clock).result
            = Except.error e1)
    (hfb : ¬ a.fallbackProviders = []) :
    (∀ x ∈ (fallbackLoop a (resolveName a pn) a.fallbackProviders
          (defaultMaxTokensReq p.config req) e1
          (tryProvider p (defaultMaxTokensReq p.config req) a.metrics a.clock).metrics
          (tryProvider p (defaultMaxTokensReq p.config req) a.metrics a.clock).clock).events,
        x ≠ resolveName a pn)
    ∧ ∀ e, (fallbackLoop a (resolveName a pn) a.fallbackProviders
          (defaultMaxTokensReq p.config req) e1
          (tryProvider p (defaultMaxTokensReq p.config req) a.metrics a.clock).metrics
          (tryProvider p (defaultMaxTokensReq p.config req) a.metrics a.clock).clock).result
        = Except.error e →
      (Complete a pn req).2.2 = Outcome.err (CompleteError.allProvidersFailed e) := by
  constructor
  · exact fallbackLoop_events_ne a hwf (resolveName a pn) a.fallbackProviders _ _ _ _
  · intro e hloop
    simp only [Complete, hmiss, hres]
    rw [if_neg hmodel]
    simp only [htry]
    rw [if_neg hfb]
    simp only [hloop]

/-- Witness for C8: primary "alpha" exhausts its three attempts; the
fallback list names the primary itself, an unregistered "missing", and a
failing "gamma"; the call fails with the all-providers-failed error
wrapping gamma's error, and "gamma" is not the primary's name. -/
theorem C8_fallback_skip_witness :
    WF agentFallback
    ∧ (tryProvider alphaDown
        (defaultMaxTokensReq alphaDown.config reqStreamTrue)
        agentFallback.metrics agentFallback.clock).result = Except.error "down"
    ∧ "gamma" ≠ resolveName agentFallback ""
    ∧ (Complete agentFallback "" reqStreamTrue).2.2
        = Outcome.err (CompleteError.allProvidersFailed "gdown") :=
  ⟨by decide, rfl,
   (C8_fallback_skip agentFallback "" reqStreamTrue alphaDown "down"
     (by decide) (by decide) rfl (by decide) rfl (by decide)).1 "gamma" (by decide),
   (C8_fallback_skip agentFallback "" reqStreamTrue alphaDown "down"
     (by decide) (by decide) rfl (by decide) rfl (by decide)).2 "gdown" rfl⟩

/-- Witness exercising C6 on a concrete call: the flaky "alpha" backend
records three attempts (one per invocation in the trace). -/
theorem C6_metrics_monotonicity_witness :
    (mget (Complete { agentFallback with fallbackProviders := [] } "" reqStreamTrue).1.metrics
        "alpha").successCount
      + (mget (Complete { agentFallback with fallbackProviders := [] } "" reqStreamTrue).1.metrics
        "alpha").failureCount
    = (mget agentFallback.metrics "alpha").successCount
      + (mget agentFallback.metrics "alpha").failureCount
      + countOcc (Complete { agentFallback with fallbackProviders := [] } "" reqStreamTrue).2.1
          "alpha"
    ∧ (mget agentFallback.metrics "alpha").totalLatency
      ≤ (mget (Complete { agentFallback with fallbackProviders := [] } "" reqStreamTrue).1.metrics
          "alpha").totalLatency :=
  C6_metrics_monotonicity { agentFallback with fallbackProviders := [] } "" reqStreamTrue "alpha"

end LlmAgent
